/-
Verification development for the crypto-bot backend (`src/backend/index.py`).

The file shallowly embeds the data model, the activity-log parsing, the
rebalance signal and the transaction handlers of the Flask service, and
proves or refutes the frozen specification claims about them.

Modelling conventions:
* Python floats are modelled as `Rat`.  The float literals `1.1` and `0.9`
  of the signal are modelled as the rationals `11/10` and `9/10`.
* Python values that flow through the handlers (JSON payload fields,
  `None`, strings, the `(response, status)` tuples Flask handlers return)
  are modelled by the dynamic type `PyVal`, so that the Python-level type
  errors the source can raise are representable.
* Exceptions are modelled with `Except PyErr`.  A handler's outcome is
  `Except PyErr PyVal`: `.ok v` means the handler returned the value `v`,
  `.error e` means the exception `e` escaped the handler uncaught.
* The chain client (web3) is the external collaborator of the spec; its
  calls are fields of a `Chain` record of type `... → Except PyErr _`, and
  every handler records which chain calls it attempted, which transactions
  it submitted and which log lines it appended.
-/
import Mathlib

/-- `RebalanceDecision` of the spec: the `{buy, sell, rebalance}` triple the
insights endpoint computes (lines 321–332 of `index.py`). -/
structure Decision where
  buy : Bool
  sell : Bool
  rebalance : Bool
deriving DecidableEq, Repr

/-- The JSON bodies `jsonify` builds in the source: an error message
(`{'error': ...}`), a transaction hash, a price, the insights triple, or the
raw log text. -/
inductive RespBody where
  | errorMsg (m : String)
  | txHash (h : String)
  | price (p : Rat)
  | insights (d : Decision)
  | logText (s : String)
deriving DecidableEq, Repr

/-- Dynamic Python values as the handlers see them: `None`, booleans, ints,
floats (as `Rat`), strings, Flask `Response` objects, and the 2-tuples
`(response, status)` every handler returns.  JSON payload fields are always
one of the first five constructors. -/
inductive PyVal where
  | none
  | boolean (b : Bool)
  | int (n : Int)
  | float (q : Rat)
  | str (s : String)
  | resp (b : RespBody)
  | pair (a b : PyVal)
deriving DecidableEq, Repr

/-- The Python exceptions the embedded code can raise. -/
inductive PyErr where
  | typeError (m : String)
  | valueError (m : String)
  | attributeError (m : String)
  | indexError (m : String)
  | zeroDivision
  | chainError (m : String)
deriving DecidableEq, Repr

/-- `str(e)`: the message a handler's `except` branch puts into the JSON
error body. -/
def PyErr.message : PyErr → String
  | .typeError m => m
  | .valueError m => m
  | .attributeError m => m
  | .indexError m => m
  | .zeroDivision => "division by zero"
  | .chainError m => m

/-- One line of the activity-log file, as the list of values the writer
interpolated into its f-string (e.g. line 109:
`f'{time.time()},{amount_in_pol},{recipient_address}\n'` becomes the three
values in order).  The writers join `str(v)` with commas; `str` of a number
never contains a comma or a newline, and payload strings (addresses) are
taken comma- and newline-free, so the fields recovered by
`line.strip().split(',')` are exactly these values' string forms. -/
abbrev Line := List PyVal

/-- `ActivityEntry` of the spec: one parsed log row
`(int(timestamp), float(amount_a), float(amount_b))` (line 316). -/
structure ActivityEntry where
  timestamp : Int
  amountA : Rat
  amountB : Rat
deriving DecidableEq, Repr

/-- All-digit, non-empty character list to its decimal value. -/
def parseNatDigits (cs : List Char) : Option Nat :=
  if cs.isEmpty then Option.none
  else
    cs.foldl
      (fun acc c =>
        match acc with
        | Option.none => Option.none
        | some n => if c.isDigit then some (n * 10 + (c.toNat - 48)) else Option.none)
      (some 0)

/-- Python `int(s)` on a string: optional sign then decimal digits
(the plain-decimal subset; underscores, surrounding whitespace and other
bases are not modelled — no claim depends on them). -/
def parseIntStr (s : String) : Option Int :=
  match s.data with
  | '-' :: rest => (parseNatDigits rest).map (fun n => -(n : Int))
  | '+' :: rest => (parseNatDigits rest).map (fun n => (n : Int))
  | cs => (parseNatDigits cs).map (fun n => (n : Int))

/-- Unsigned decimal float string: `digits`, `digits.digits`, `digits.` or
`.digits`. -/
def parseUnsignedFloatStr (s : String) : Option Rat :=
  match s.splitOn "." with
  | [intPart] => (parseNatDigits intPart.data).map (fun n => (n : Rat))
  | [intPart, fracPart] =>
    if intPart.isEmpty && fracPart.isEmpty then Option.none
    else
      match (if intPart.isEmpty then some 0 else parseNatDigits intPart.data),
            (if fracPart.isEmpty then some 0 else parseNatDigits fracPart.data) with
      | some ip, some fp => some ((ip : Rat) + (fp : Rat) / ((10 : Rat) ^ fracPart.length))
      | _, _ => Option.none
  | _ => Option.none

/-- Python `float(s)` on a string: optional sign then an unsigned decimal
(the plain-decimal subset; exponents/`inf`/`nan` are not modelled — no claim
depends on them). -/
def parseFloatStr (s : String) : Option Rat :=
  match s.data with
  | '-' :: rest => (parseUnsignedFloatStr (String.mk rest)).map (fun q => -q)
  | '+' :: rest => parseUnsignedFloatStr (String.mk rest)
  | _ => parseUnsignedFloatStr s

/-- `int(field)` where `field` is the string form the writer produced for a
value (the file holds `str(v)`).  `str` of a Python float always contains a
`.` (or `e`/`inf`/`nan`), so `int` of it raises ValueError — in particular
`int(str(time.time()))` always fails; `str` of an int parses back exactly;
`str(True)`/`str(None)` are not integer literals. -/
def intOfFieldStr : PyVal → Except PyErr Int
  | .int n => .ok n
  | .str s =>
    match parseIntStr s with
    | some n => .ok n
    | Option.none => .error (.valueError "invalid literal for int")
  | _ => .error (.valueError "invalid literal for int")

/-- `float(field)` where `field` is the string form the writer produced for
a value.  `float(str(x)) == x` for Python floats (repr round-trips), ints
read back exactly, and non-numeric strings raise ValueError. -/
def floatOfFieldStr : PyVal → Except PyErr Rat
  | .int n => .ok (n : Rat)
  | .float q => .ok q
  | .str s =>
    match parseFloatStr s with
    | some q => .ok q
    | Option.none => .error (.valueError "could not convert string to float")
  | _ => .error (.valueError "could not convert string to float")

/-- Lines 315–316: `timestamp, amount_a, amount_b = line.strip().split(',')`
followed by `int(timestamp), float(amount_a), float(amount_b)`.  A line with
a field count other than 3 raises ValueError at the unpacking; a field that
does not parse raises ValueError at the conversion. -/
def parseLine : Line → Except PyErr ActivityEntry
  | [t, a, b] =>
    match intOfFieldStr t with
    | .error e => .error e
    | .ok ts =>
      match floatOfFieldStr a with
      | .error e => .error e
      | .ok aa =>
        match floatOfFieldStr b with
        | .error e => .error e
        | .ok bb => .ok ⟨ts, aa, bb⟩
  | _ => .error (.valueError "not enough values to unpack")

/-- Lines 310–316: the log-parsing loop of `/rebalance-insights`
(`readAll()` of the spec).  It parses the lines in order and aborts with the
first line's exception; there is no skipping and no partial result. -/
def readAll : List Line → Except PyErr (List ActivityEntry)
  | [] => .ok []
  | l :: ls =>
    match parseLine l with
    | .error e => .error e
    | .ok entry =>
      match readAll ls with
      | .error e => .error e
      | .ok rest => .ok (entry :: rest)

/-- Line 320: `window_size = 10`. -/
def windowSize : Nat := 10

/-- Line 325: `avg_a = sum(x[1] for x in data[-window_size:]) / window_size`.
`data.drop (data.length - windowSize)` is Python's `data[-window_size:]`. -/
def avgA (data : List ActivityEntry) : Rat :=
  (((data.drop (data.length - windowSize)).map (fun x => x.amountA)).sum) / (windowSize : Rat)

/-- Line 326: `avg_b = sum(x[2] for x in data[-window_size:]) / window_size`. -/
def avgB (data : List ActivityEntry) : Rat :=
  (((data.drop (data.length - windowSize)).map (fun x => x.amountB)).sum) / (windowSize : Rat)

/-- Lines 320–332: the moving-average decision (`RebalanceSignal.evaluate()`
of the spec) applied to the parsed log.  The float thresholds `1.1` and
`0.9` are modelled as `11/10` and `9/10`. -/
def evaluate (data : List ActivityEntry) : Decision :=
  if windowSize ≤ data.length then
    match data.getLast? with
    | Option.none => ⟨false, false, false⟩
    | some cur =>
      if cur.amountA > avgA data * (11/10 : Rat) then ⟨true, false, false⟩
      else if cur.amountB > avgB data * (11/10 : Rat) then ⟨false, true, false⟩
      else if cur.amountA < avgA data * (9/10 : Rat) ∨ cur.amountB < avgB data * (9/10 : Rat) then
        ⟨false, false, true⟩
      else ⟨false, false, false⟩
  else ⟨false, false, false⟩

instance {ε α : Type} [DecidableEq ε] [DecidableEq α] : DecidableEq (Except ε α) := fun a b =>
  match a, b with
  | .error e, .error e' => decidable_of_iff (e = e') (by simp)
  | .ok v, .ok v' => decidable_of_iff (v = v') (by simp)
  | .error _, .ok _ => isFalse (by simp)
  | .ok _, .error _ => isFalse (by simp)

/-- The transactions the handlers can build: the direct transfer of `/send`
(lines 95–98), the `swapExactTokens` of `/buy-pol` (155–164) and
`/auto-rebalance` (389–398), and the `addLiquidity` of `/rebalance`
(262–271). -/
inductive Tx where
  | transfer (toAddr : PyVal) (valueWei : Int)
  | swap (amountIn amountOutMin : Int) (path : List PyVal) (recipient : String)
      (deadline : Int) (nonce : Int)
  | addLiquidity (tokenA tokenB : PyVal) (amountA amountB : Int) (minA minB : Int)
      (recipient : String) (deadline : Int)
deriving DecidableEq, Repr

/-- A locally signed transaction (`w3.eth.account.sign_transaction`). -/
structure SignedTx where
  tx : Tx
deriving DecidableEq, Repr

/-- A transaction receipt (`wait_for_transaction_receipt`), line 274 uses
its `transactionHash`. -/
structure Receipt where
  transactionHash : String
deriving DecidableEq, Repr

/-- Tags for the chain-client calls a handler attempts, in order. -/
inductive CallTag where
  | sendTransaction
  | sendRawTransaction
  | transact
  | waitForReceipt
  | getBalance
  | getTransactionCount
  | getAmountsOut
  | latestAnswer
deriving DecidableEq, Repr

/-- The external chain client (web3), per the spec an external collaborator
used only through its contract.  Every call can raise (modelled as
`Except PyErr`); the handlers' `try` blocks catch what it raises. -/
structure Chain where
  sendTransaction : Tx → Except PyErr String
  sendRawTransaction : SignedTx → Except PyErr String
  signTransaction : Tx → Except PyErr SignedTx
  transact : Tx → Except PyErr String
  waitForReceipt : String → Except PyErr Receipt
  getBalance : PyVal → Except PyErr Int
  getTransactionCount : String → Except PyErr Int
  getAmountsOut : Int → List PyVal → Except PyErr (List Int)
  latestAnswer : Unit → Except PyErr Int

/-- The process-wide context the module sets up at import time (lines
44–67): the chain client, the configured wallet and token addresses, plus
the current clock reading `time.time()` for the request being handled. -/
structure Env where
  chain : Chain
  walletAddress : String
  daiAddress : PyVal
  polAddress : PyVal
  now : Rat

/-- A request's JSON payload as the handlers read it: `data.get(k)` yields
the field's value, or Python `None` when the key is absent. -/
structure Payload where
  recipient_address : PyVal := PyVal.none
  amount_in_pol : PyVal := PyVal.none
  amount_in_usd : PyVal := PyVal.none
  token_a : PyVal := PyVal.none
  token_b : PyVal := PyVal.none
  amount_a : PyVal := PyVal.none
  amount_b : PyVal := PyVal.none
deriving DecidableEq, Repr

/-- The observable outcome of one handler invocation: the returned value or
the uncaught exception, the chain calls attempted, the transactions
submitted to the chain, and the lines appended to the activity log. -/
structure HandlerOut where
  result : Except PyErr PyVal
  calls : List CallTag
  submitted : List Tx
  appended : List Line

/-- `jsonify(body), 200`. -/
def jok (b : RespBody) : PyVal := .pair (.resp b) (.int 200)

/-- `jsonify({'error': 'Missing required parameters'}), 400`. -/
def jerr400 : PyVal := .pair (.resp (.errorMsg "Missing required parameters")) (.int 400)

/-- `jsonify({'error': str(e)}), 500`. -/
def jerr500 (m : String) : PyVal := .pair (.resp (.errorMsg m)) (.int 500)

/-- True when the handler's view of the value is numeric: Python's `bool`
is an `int` subclass, so it arithmetics as 0 or 1. -/
def pyNumber : PyVal → Option Rat
  | .int n => some (n : Rat)
  | .float q => some q
  | .boolean b => some (if b then 1 else 0)
  | _ => Option.none

/-- Python `/` (true division): numbers divide, a zero divisor raises
ZeroDivisionError, any non-numeric operand raises TypeError. -/
def pyDiv (a b : PyVal) : Except PyErr PyVal :=
  match pyNumber b with
  | Option.none => .error (.typeError "unsupported operand type(s) for /")
  | some y =>
    match pyNumber a with
    | Option.none => .error (.typeError "unsupported operand type(s) for /")
    | some x => if y = 0 then .error .zeroDivision else .ok (.float (x / y))

/-- Python truthiness of the values a payload field can hold (lines 243 and
364 feed these into `all([...])`). -/
def truthy : PyVal → Bool
  | PyVal.none => false
  | .boolean b => b
  | .int n => decide (n ≠ 0)
  | .float q => decide (q ≠ 0)
  | .str s => decide (s ≠ "")
  | .resp _ => true
  | .pair _ _ => true

/-- Python `int(q)` on a number: truncation toward zero, computed on the
normalised numerator/denominator (`den > 0`, so `|q|` truncates to
`|num| / den` and the sign is reapplied). -/
def pyTruncInt (q : Rat) : Int :=
  if 0 ≤ q.num then ((q.num.toNat / q.den : Nat) : Int)
  else -(((-q.num).toNat / q.den : Nat) : Int)

/-- The client's `to_wei(str(v), 'ether')` (reached as `w3.utils.to_wei` on
lines 97, 384, 390 and `w3.toWei` on lines 150, 156): scale a numeric
string by `10^18`, raising unless the string is numeric and the wei amount
integral. -/
def toWeiEther : PyVal → Except PyErr Int
  | .int n => .ok (n * 10 ^ 18)
  | .float q =>
    if (q * 10 ^ 18).den = 1 then .ok (q * 10 ^ 18).num
    else .error (.valueError "non-integral wei value")
  | .str s =>
    match parseFloatStr s with
    | some q =>
      if (q * 10 ^ 18).den = 1 then .ok (q * 10 ^ 18).num
      else .error (.valueError "non-integral wei value")
    | Option.none => .error (.valueError "could not convert string to wei")
  | _ => .error (.valueError "could not convert string to wei")

/-- Lines 252–253 and 373–374: `int(amount * balance / 10**18)`.
Multiplication follows Python (numbers multiply; a string times an int is
repetition, and the string then fails the true division); `int` truncates
toward zero. -/
def scaledAmount (v : PyVal) (bal : Int) : Except PyErr Int :=
  match pyNumber v with
  | some x => .ok (pyTruncInt (x * (bal : Rat) / (10 : Rat) ^ 18))
  | Option.none =>
    match v with
    | .str _ => .error (.typeError "unsupported operand type(s) for /")
    | _ => .error (.typeError "unsupported operand type(s) for *")

/-- Line 352: `insights = insights_response.json()`.
`get_rebalance_insights()` returns a `(response, status)` TUPLE, and a
tuple has no attribute `json`, so the access raises AttributeError.  Even
on a bare `Response`, `json` is a property holding the body dict, and the
trailing call `()` would raise TypeError.  No branch yields a decision. -/
def pyCallJsonMethod : PyVal → Except PyErr Decision
  | .pair _ _ => .error (.attributeError "tuple object has no attribute json")
  | .resp _ => .error (.typeError "dict object is not callable")
  | _ => .error (.attributeError "object has no attribute json")

/-- Lines 439–462: the `/get-pol-price` handler (the module defines
`get_pol_price` twice — lines 187–223 and 439–462; Python name binding
makes the later definition the one `buy_pol` calls, so that is the one
embedded).  Its whole body sits in `try`, so it always RETURNS a
`(response, status)` tuple: the price read from the feed scaled by `10^8`,
or the 500 error body. -/
def get_pol_price (env : Env) : HandlerOut :=
  match env.chain.latestAnswer () with
  | .error e =>
    { result := .ok (jerr500 e.message), calls := [.latestAnswer], submitted := [], appended := [] }
  | .ok n =>
    { result := .ok (jok (.price ((n : Rat) / (10 : Rat) ^ 8))),
      calls := [.latestAnswer], submitted := [], appended := [] }

/-- Lines 464–487: the `/get-dai-price` handler; same shape as
`get_pol_price`. -/
def get_dai_price (env : Env) : HandlerOut :=
  match env.chain.latestAnswer () with
  | .error e =>
    { result := .ok (jerr500 e.message), calls := [.latestAnswer], submitted := [], appended := [] }
  | .ok n =>
    { result := .ok (jok (.price ((n : Rat) / (10 : Rat) ^ 8))),
      calls := [.latestAnswer], submitted := [], appended := [] }

/-- Lines 69–118: the `/send` handler.  Missing field ⇒ 400 before anything
else; then inside `try`: build the transfer, submit, wait for the receipt,
append `f'{time.time()},{amount_in_pol},{recipient_address}'` to the log
and answer with the transaction hash; any exception ⇒ 500 with `str(e)`. -/
def send_transaction (env : Env) (p : Payload) : HandlerOut :=
  let recipient := p.recipient_address
  let amount := p.amount_in_pol
  if recipient = PyVal.none ∨ amount = PyVal.none then
    { result := .ok jerr400, calls := [], submitted := [], appended := [] }
  else
    match toWeiEther amount with
    | .error e =>
      { result := .ok (jerr500 e.message), calls := [], submitted := [], appended := [] }
    | .ok wei =>
      let tx := Tx.transfer recipient wei
      match env.chain.sendTransaction tx with
      | .error e =>
        { result := .ok (jerr500 e.message), calls := [.sendTransaction],
          submitted := [], appended := [] }
      | .ok txh =>
        match env.chain.waitForReceipt txh with
        | .error e =>
          { result := .ok (jerr500 e.message), calls := [.sendTransaction, .waitForReceipt],
            submitted := [tx], appended := [] }
        | .ok _ =>
          { result := .ok (jok (.txHash txh)),
            calls := [.sendTransaction, .waitForReceipt],
            submitted := [tx],
            appended := [[.float env.now, amount, recipient]] }

/-- Lines 120–185: the `/buy-pol` handler.  After the missing-field check it
assigns `pol_price = get_pol_price()` — the handler's RETURN VALUE, a
`(response, status)` tuple — and divides `amount_in_usd` by it; the
remainder of the body (quote, build, sign, submit, receipt, log append) is
translated in full below the division even though the division's TypeError
makes it unreachable. -/
def buy_pol (env : Env) (p : Payload) : HandlerOut :=
  let amount_in_usd := p.amount_in_usd
  if amount_in_usd = PyVal.none then
    { result := .ok jerr400, calls := [], submitted := [], appended := [] }
  else
    let priceOut := get_pol_price env
    match priceOut.result with
    | .error e =>
      { result := .ok (jerr500 e.message), calls := priceOut.calls, submitted := [], appended := [] }
    | .ok pol_price =>
      match pyDiv amount_in_usd pol_price with
      | .error e =>
        { result := .ok (jerr500 e.message), calls := priceOut.calls, submitted := [], appended := [] }
      | .ok amount_in_pol =>
        match toWeiEther amount_in_usd with
        | .error e =>
          { result := .ok (jerr500 e.message), calls := priceOut.calls, submitted := [], appended := [] }
        | .ok weiIn =>
          let path := [env.daiAddress, env.polAddress]
          match env.chain.getAmountsOut weiIn path with
          | .error e =>
            { result := .ok (jerr500 e.message), calls := priceOut.calls ++ [.getAmountsOut],
              submitted := [], appended := [] }
          | .ok amounts =>
            match amounts.getLast? with
            | Option.none =>
              { result := .ok (jerr500 (PyErr.indexError "list index out of range").message),
                calls := priceOut.calls ++ [.getAmountsOut], submitted := [], appended := [] }
            | some amount_out =>
              match env.chain.getTransactionCount env.walletAddress with
              | .error e =>
                { result := .ok (jerr500 e.message),
                  calls := priceOut.calls ++ [.getAmountsOut, .getTransactionCount],
                  submitted := [], appended := [] }
              | .ok nonce =>
                let tx := Tx.swap weiIn amount_out path env.walletAddress
                    (pyTruncInt env.now + 100) nonce
                match env.chain.signTransaction tx with
                | .error e =>
                  { result := .ok (jerr500 e.message),
                    calls := priceOut.calls ++ [.getAmountsOut, .getTransactionCount],
                    submitted := [], appended := [] }
                | .ok signed =>
                  match env.chain.sendRawTransaction signed with
                  | .error e =>
                    { result := .ok (jerr500 e.message),
                      calls := priceOut.calls ++
                        [.getAmountsOut, .getTransactionCount, .sendRawTransaction],
                      submitted := [], appended := [] }
                  | .ok txh =>
                    match env.chain.waitForReceipt txh with
                    | .error e =>
                      { result := .ok (jerr500 e.message),
                        calls := priceOut.calls ++
                          [.getAmountsOut, .getTransactionCount, .sendRawTransaction,
                           .waitForReceipt],
                        submitted := [tx], appended := [] }
                    | .ok _ =>
                      { result := .ok (jok (.txHash txh)),
                        calls := priceOut.calls ++
                          [.getAmountsOut, .getTransactionCount, .sendRawTransaction,
                           .waitForReceipt],
                        submitted := [tx],
                        appended := [[.float env.now, amount_in_pol, amount_in_usd]] }

/-- Lines 225–290: the `/rebalance` handler.  Line 243's
`if not all([token_a, token_b, amount_a, amount_b])` is a truthiness check:
absent fields (None), zero amounts and empty strings all fail it.  On
success it appends `f'{time.time()},{amount_a_to_sell},{amount_b_to_buy}'`
and answers with the receipt's transaction hash. -/
def rebalance (env : Env) (p : Payload) : HandlerOut :=
  if !(truthy p.token_a && truthy p.token_b && truthy p.amount_a && truthy p.amount_b) then
    { result := .ok jerr400, calls := [], submitted := [], appended := [] }
  else
    match env.chain.getBalance p.token_a with
    | .error e =>
      { result := .ok (jerr500 e.message), calls := [.getBalance], submitted := [], appended := [] }
    | .ok balA =>
      match env.chain.getBalance p.token_b with
      | .error e =>
        { result := .ok (jerr500 e.message), calls := [.getBalance, .getBalance],
          submitted := [], appended := [] }
      | .ok balB =>
        match scaledAmount p.amount_a balA with
        | .error e =>
          { result := .ok (jerr500 e.message), calls := [.getBalance, .getBalance],
            submitted := [], appended := [] }
        | .ok aSell =>
          match scaledAmount p.amount_b balB with
          | .error e =>
            { result := .ok (jerr500 e.message), calls := [.getBalance, .getBalance],
              submitted := [], appended := [] }
          | .ok bBuy =>
            let tx := Tx.addLiquidity p.token_a p.token_b aSell bBuy 1 1
                env.walletAddress (pyTruncInt env.now + 60)
            match env.chain.transact tx with
            | .error e =>
              { result := .ok (jerr500 e.message),
                calls := [.getBalance, .getBalance, .transact], submitted := [], appended := [] }
            | .ok txh =>
              match env.chain.waitForReceipt txh with
              | .error e =>
                { result := .ok (jerr500 e.message),
                  calls := [.getBalance, .getBalance, .transact, .waitForReceipt],
                  submitted := [tx], appended := [] }
              | .ok receipt =>
                { result := .ok (jok (.txHash receipt.transactionHash)),
                  calls := [.getBalance, .getBalance, .transact, .waitForReceipt],
                  submitted := [tx],
                  appended := [[.float env.now, .int aSell, .int bBuy]] }

/-- Lines 292–339: the `/rebalance-insights` handler.  It has NO
`try`/`except`: a log line the parsing loop rejects propagates out of the
handler as an uncaught exception; otherwise it returns the decision as a
`(response, 200)` tuple.  It attempts no chain call, submits nothing and
appends nothing. -/
def get_rebalance_insights (log : List Line) : HandlerOut :=
  match readAll log with
  | .error e => { result := .error e, calls := [], submitted := [], appended := [] }
  | .ok data =>
    { result := .ok (jok (.insights (evaluate data))), calls := [], submitted := [], appended := [] }

/-- Lines 355–414 of the `/auto-rebalance` handler: the code that runs once
an `insights` value is in hand — the `insights.get('rebalance')` gate, the
truthiness validation of line 364, and the `try` block that quotes, builds
and submits the swap.  When the gate is falsy the function body ends
without a `return`, so the handler returns Python `None` (line 414 falls
through); note the success branch (lines 400–408) returns the transaction
hash WITHOUT appending anything to the activity log. -/
def auto_rebalance_pipeline (env : Env) (p : Payload) (insights : Decision) : HandlerOut :=
  if insights.rebalance then
    if !(truthy p.token_a && truthy p.token_b && truthy p.amount_a && truthy p.amount_b) then
      { result := .ok jerr400, calls := [], submitted := [], appended := [] }
    else
      match env.chain.getBalance p.token_a with
      | .error e =>
        { result := .ok (jerr500 e.message), calls := [.getBalance], submitted := [], appended := [] }
      | .ok balA =>
        match env.chain.getBalance p.token_b with
        | .error e =>
          { result := .ok (jerr500 e.message), calls := [.getBalance, .getBalance],
            submitted := [], appended := [] }
        | .ok balB =>
          match scaledAmount p.amount_a balA with
          | .error e =>
            { result := .ok (jerr500 e.message), calls := [.getBalance, .getBalance],
              submitted := [], appended := [] }
          | .ok aSell =>
            match scaledAmount p.amount_b balB with
            | .error e =>
              { result := .ok (jerr500 e.message), calls := [.getBalance, .getBalance],
                submitted := [], appended := [] }
            | .ok _bBuy =>
              match toWeiEther (.int aSell) with
              | .error e =>
                { result := .ok (jerr500 e.message), calls := [.getBalance, .getBalance],
                  submitted := [], appended := [] }
              | .ok weiIn =>
                let path := [p.token_a, p.token_b]
                match env.chain.getAmountsOut weiIn path with
                | .error e =>
                  { result := .ok (jerr500 e.message),
                    calls := [.getBalance, .getBalance, .getAmountsOut],
                    submitted := [], appended := [] }
                | .ok amounts =>
                  match amounts.getLast? with
                  | Option.none =>
                    { result := .ok (jerr500 (PyErr.indexError "list index out of range").message),
                      calls := [.getBalance, .getBalance, .getAmountsOut],
                      submitted := [], appended := [] }
                  | some amount_out =>
                    match env.chain.getTransactionCount env.walletAddress with
                    | .error e =>
                      { result := .ok (jerr500 e.message),
                        calls := [.getBalance, .getBalance, .getAmountsOut, .getTransactionCount],
                        submitted := [], appended := [] }
                    | .ok nonce =>
                      let tx := Tx.swap weiIn amount_out path env.walletAddress
                          (pyTruncInt env.now + 100) nonce
                      match env.chain.sendTransaction tx with
                      | .error e =>
                        { result := .ok (jerr500 e.message),
                          calls := [.getBalance, .getBalance, .getAmountsOut,
                            .getTransactionCount, .sendTransaction],
                          submitted := [], appended := [] }
                      | .ok txh =>
                        match env.chain.waitForReceipt txh with
                        | .error e =>
                          { result := .ok (jerr500 e.message),
                            calls := [.getBalance, .getBalance, .getAmountsOut,
                              .getTransactionCount, .sendTransaction, .waitForReceipt],
                            submitted := [tx], appended := [] }
                        | .ok _ =>
                          { result := .ok (jok (.txHash txh)),
                            calls := [.getBalance, .getBalance, .getAmountsOut,
                              .getTransactionCount, .sendTransaction, .waitForReceipt],
                            submitted := [tx],
                            appended := [] }
  else
    { result := .ok PyVal.none, calls := [], submitted := [], appended := [] }

/-- Lines 341–414: the `/auto-rebalance` handler.  It first calls
`get_rebalance_insights()` directly (line 351) — if the log parse raises,
that exception escapes, since no `try` surrounds the call — and then calls
`.json()` on the returned `(response, status)` tuple (line 352), which
raises outside any `try`.  Only if an `insights` value were produced would
the pipeline body run. -/
def auto_rebalance (env : Env) (log : List Line) (p : Payload) : HandlerOut :=
  let ins := get_rebalance_insights log
  match ins.result with
  | .error e =>
    { result := .error e, calls := ins.calls, submitted := ins.submitted, appended := ins.appended }
  | .ok insights_response =>
    match pyCallJsonMethod insights_response with
    | .error e =>
      { result := .error e, calls := ins.calls, submitted := ins.submitted,
        appended := ins.appended }
    | .ok insights =>
      let out := auto_rebalance_pipeline env p insights
      { result := out.result, calls := ins.calls ++ out.calls,
        submitted := ins.submitted ++ out.submitted, appended := ins.appended ++ out.appended }

/-- True when an exception escaped the handler uncaught. -/
def HandlerOut.isUncaught (h : HandlerOut) : Bool :=
  match h.result with
  | .error _ => true
  | .ok _ => false

/-- True when the handler answered 200 with a transaction hash. -/
def HandlerOut.returnsTxHash (h : HandlerOut) : Bool :=
  match h.result with
  | .ok (.pair (.resp (.txHash _)) _) => true
  | _ => false

/-- True when `readAll` failed, and with a ValueError (the only exception
the parsing loop raises). -/
def failsParse : Except PyErr (List ActivityEntry) → Bool
  | .error (.valueError _) => true
  | _ => false

/-- True when `parseLine` rejects the line. -/
def parseFails (l : Line) : Bool :=
  match parseLine l with
  | .error _ => true
  | .ok _ => false

/-- A chain client every call of which succeeds, for concrete runs:
submissions hash to `"0xhash"`, balances read as `0` wei, the quote
returns `[5, 7]`, the price feed answers `10^8`. -/
def chain0 : Chain where
  sendTransaction := fun _ => .ok "0xhash"
  sendRawTransaction := fun _ => .ok "0xhash"
  signTransaction := fun t => .ok ⟨t⟩
  transact := fun _ => .ok "0xhash"
  waitForReceipt := fun _ => .ok ⟨"0xhash"⟩
  getBalance := fun _ => .ok 0
  getTransactionCount := fun _ => .ok 0
  getAmountsOut := fun _ _ => .ok [5, 7]
  latestAnswer := fun _ => .ok (10 ^ 8)

/-- A concrete process context over `chain0`. -/
def env0 : Env where
  chain := chain0
  walletAddress := "0xWallet"
  daiAddress := PyVal.str "0xDai"
  polAddress := PyVal.str "0xPol"
  now := 1700000000

/-- The payload of a request whose body is `{}`: every field reads as None. -/
def pEmpty : Payload := {}

/-- A complete `/send` payload. -/
def pSend0 : Payload :=
  { recipient_address := PyVal.str "0xRecipient", amount_in_pol := PyVal.int 1 }

/-- A complete `/buy-pol` payload. -/
def pBuy0 : Payload := { amount_in_usd := PyVal.float 100 }

/-- A complete, all-truthy rebalance payload. -/
def pReb0 : Payload :=
  { token_a := PyVal.str "0xA", token_b := PyVal.str "0xB",
    amount_a := PyVal.int 1, amount_b := PyVal.int 2 }

/-- A rebalance payload with every field present but `amount_a = 0`
(falsy). -/
def pFalsy0 : Payload :=
  { token_a := PyVal.str "0xA", token_b := PyVal.str "0xB",
    amount_a := PyVal.int 0, amount_b := PyVal.int 1 }

/-- A 10-entry log in which the last entry qualifies for both the buy rule
(`200 > 110 * 1.1`) and the rebalance rule (`10 < 91 * 0.9`). -/
def dataC4 : List ActivityEntry :=
  [⟨0, 100, 100⟩, ⟨0, 100, 100⟩, ⟨0, 100, 100⟩, ⟨0, 100, 100⟩, ⟨0, 100, 100⟩,
   ⟨0, 100, 100⟩, ⟨0, 100, 100⟩, ⟨0, 100, 100⟩, ⟨0, 100, 100⟩, ⟨0, 200, 10⟩]

theorem isUncaught_ne_ok {H : HandlerOut} (h : H.isUncaught = true) (v : PyVal) :
    H.result ≠ .ok v := by
  intro hc
  rw [HandlerOut.isUncaught, hc] at h
  exact Bool.false_ne_true h

theorem auto_rebalance_raises (env : Env) (log : List Line) (p : Payload) :
    (auto_rebalance env log p).calls = [] ∧ (auto_rebalance env log p).submitted = [] ∧
    (auto_rebalance env log p).appended = [] ∧ (auto_rebalance env log p).isUncaught = true := by
  unfold auto_rebalance get_rebalance_insights
  cases h : readAll log <;>
    simp [h, pyCallJsonMethod, jok, HandlerOut.isUncaught]

theorem send_transaction_no_uncaught (env : Env) (p : Payload) :
    (send_transaction env p).isUncaught = false := by
  unfold send_transaction
  repeat' (first | split | dsimp only)
  all_goals rfl

theorem buy_pol_no_uncaught (env : Env) (p : Payload) :
    (buy_pol env p).isUncaught = false := by
  unfold buy_pol get_pol_price
  repeat' (first | split | dsimp only)
  all_goals rfl

theorem rebalance_no_uncaught (env : Env) (p : Payload) :
    (rebalance env p).isUncaught = false := by
  unfold rebalance
  repeat' (first | split | dsimp only)
  all_goals rfl

theorem get_pol_price_no_uncaught (env : Env) :
    (get_pol_price env).isUncaught = false := by
  unfold get_pol_price
  repeat' (first | split | dsimp only)
  all_goals rfl

theorem get_dai_price_no_uncaught (env : Env) :
    (get_dai_price env).isUncaught = false := by
  unfold get_dai_price
  repeat' (first | split | dsimp only)
  all_goals rfl

theorem auto_rebalance_pipeline_no_append (env : Env) (p : Payload) (d : Decision) :
    (auto_rebalance_pipeline env p d).appended = [] := by
  unfold auto_rebalance_pipeline
  repeat' (first | split | dsimp only)

theorem rebalance_invalid_400 (env : Env) (p : Payload)
    (h : (truthy p.token_a && truthy p.token_b && truthy p.amount_a && truthy p.amount_b)
      = false) :
    rebalance env p
      = { result := .ok jerr400, calls := [], submitted := [], appended := [] } := by
  unfold rebalance
  rw [h]
  rfl

theorem buy_pol_no_txhash (env : Env) (p : Payload) :
    (buy_pol env p).returnsTxHash = false := by
  unfold buy_pol
  by_cases h : p.amount_in_usd = PyVal.none
  · simp [h, jerr400, HandlerOut.returnsTxHash]
  · cases hla : env.chain.latestAnswer () <;>
      simp [h, hla, get_pol_price, pyDiv, pyNumber, jok, jerr500, HandlerOut.returnsTxHash]

theorem intOfFieldStr_error_is_valueError (v : PyVal) (e : PyErr)
    (h : intOfFieldStr v = .error e) : ∃ m, e = .valueError m := by
  cases v <;> simp [intOfFieldStr] at h <;> try exact ⟨_, h.symm⟩
  case str s =>
    cases hp : parseIntStr s <;> simp [hp] at h
    exact ⟨_, h.symm⟩

theorem floatOfFieldStr_error_is_valueError (v : PyVal) (e : PyErr)
    (h : floatOfFieldStr v = .error e) : ∃ m, e = .valueError m := by
  cases v <;> simp [floatOfFieldStr] at h <;> try exact ⟨_, h.symm⟩
  case str s =>
    cases hp : parseFloatStr s <;> simp [hp] at h
    exact ⟨_, h.symm⟩

theorem parseLine_error_is_valueError (l : Line) (e : PyErr)
    (h : parseLine l = .error e) : ∃ m, e = .valueError m := by
  unfold parseLine at h
  split at h
  · split at h
    · cases h
      exact intOfFieldStr_error_is_valueError _ _ (by assumption)
    · split at h
      · cases h
        exact floatOfFieldStr_error_is_valueError _ _ (by assumption)
      · split at h
        · cases h
          exact floatOfFieldStr_error_is_valueError _ _ (by assumption)
        · simp at h
  · cases h
    exact ⟨_, rfl⟩

/-- C3: for every log whose parsed entry list has fewer than 10 entries,
the rebalance signal returns the all-false decision
`{buy: false, sell: false, rebalance: false}`, and `/rebalance-insights`
answers 200 with exactly that body. -/
theorem insights_short_history_all_false (log : List Line) (data : List ActivityEntry)
    (hread : readAll log = .ok data) (hlen : data.length < windowSize) :
    evaluate data = ⟨false, false, false⟩ ∧
    (get_rebalance_insights log).result = .ok (jok (.insights ⟨false, false, false⟩)) := by
  have hev : evaluate data = ⟨false, false, false⟩ := by
    unfold evaluate
    rw [if_neg (by omega)]
  exact ⟨hev, by simp [get_rebalance_insights, hread, hev]⟩

/-- Witness for `insights_short_history_all_false` at the empty log. -/
theorem insights_short_history_all_false_witness :
    readAll [] = .ok [] ∧ ([] : List ActivityEntry).length < windowSize ∧
    (evaluate ([] : List ActivityEntry) = ⟨false, false, false⟩ ∧
     (get_rebalance_insights []).result = .ok (jok (.insights ⟨false, false, false⟩))) :=
  ⟨rfl, by decide, insights_short_history_all_false [] [] rfl (by decide)⟩

/-- C4: the decision rules are a first-match-wins priority chain — an entry
that satisfies both the buy condition (`curA > avgA * 1.1`) and the
rebalance condition (`curA < avgA * 0.9 or curB < avgB * 0.9`) yields
`buy = true` with `sell = false` and `rebalance = false`. -/
theorem evaluate_buy_beats_rebalance (data : List ActivityEntry) (cur : ActivityEntry)
    (hlen : windowSize ≤ data.length) (hlast : data.getLast? = some cur)
    (hbuy : cur.amountA > avgA data * (11/10 : Rat))
    (hreb : cur.amountA < avgA data * (9/10 : Rat) ∨ cur.amountB < avgB data * (9/10 : Rat)) :
    evaluate data = ⟨true, false, false⟩ := by
  unfold evaluate
  rw [if_pos hlen, hlast]
  exact if_pos hbuy

theorem avgA_dataC4 : avgA dataC4 = 110 := by
  norm_num [avgA, dataC4, windowSize]

theorem avgB_dataC4 : avgB dataC4 = 91 := by
  norm_num [avgB, dataC4, windowSize]

theorem dataC4_buy : (⟨0, 200, 10⟩ : ActivityEntry).amountA > avgA dataC4 * (11/10 : Rat) := by
  rw [avgA_dataC4]; norm_num

theorem dataC4_reb : (⟨0, 200, 10⟩ : ActivityEntry).amountB < avgB dataC4 * (9/10 : Rat) := by
  rw [avgB_dataC4]; norm_num

/-- Witness for `evaluate_buy_beats_rebalance` on `dataC4`, whose last
entry passes both the buy and the rebalance thresholds. -/
theorem evaluate_buy_beats_rebalance_witness :
    windowSize ≤ dataC4.length ∧ dataC4.getLast? = some ⟨0, 200, 10⟩ ∧
    (⟨0, 200, 10⟩ : ActivityEntry).amountA > avgA dataC4 * (11/10 : Rat) ∧
    ((⟨0, 200, 10⟩ : ActivityEntry).amountA < avgA dataC4 * (9/10 : Rat) ∨
     (⟨0, 200, 10⟩ : ActivityEntry).amountB < avgB dataC4 * (9/10 : Rat)) ∧
    evaluate dataC4 = ⟨true, false, false⟩ :=
  ⟨by norm_num [dataC4, windowSize], by rfl, dataC4_buy, Or.inr dataC4_reb,
   evaluate_buy_beats_rebalance dataC4 ⟨0, 200, 10⟩ (by norm_num [dataC4, windowSize]) (by rfl)
     dataC4_buy (Or.inr dataC4_reb)⟩

/-- C8: a log containing a line the parser rejects (wrong field count, or a
field that fails `int`/`float` conversion) makes `readAll` fail with a
ValueError (the `ParseError` of the spec) — no silent skip and, `Except`
being all-or-nothing, no partial result. -/
theorem readAll_malformed_line_fails (lines : List Line)
    (h : lines.any parseFails = true) :
    ∃ m, readAll lines = .error (.valueError m) := by
  induction lines with
  | nil => simp [List.any_nil] at h
  | cons a as ih =>
    cases ha : parseLine a with
    | error e =>
      obtain ⟨m, hm⟩ := parseLine_error_is_valueError a e ha
      exact ⟨m, by rw [readAll, ha, hm]⟩
    | ok v =>
      have has : as.any parseFails = true := by
        rw [List.any_cons] at h
        rcases Bool.or_eq_true_iff.mp h with hfa | hok
        · rw [parseFails, ha] at hfa; cases hfa
        · exact hok
      obtain ⟨m, hm⟩ := ih has
      exact ⟨m, by rw [readAll, ha, hm]⟩

/-- Witness for `readAll_malformed_line_fails`: a well-formed line followed
by a line whose timestamp field is a float's string form. -/
theorem readAll_malformed_line_fails_witness :
    ([[PyVal.int 5, PyVal.int 1, PyVal.int 2],
      [PyVal.float (1/2), PyVal.int 1, PyVal.int 2]] : List Line).any parseFails = true ∧
    ∃ m, readAll [[PyVal.int 5, PyVal.int 1, PyVal.int 2],
      [PyVal.float (1/2), PyVal.int 1, PyVal.int 2]] = .error (.valueError m) :=
  ⟨by decide,
   readAll_malformed_line_fails
     [[PyVal.int 5, PyVal.int 1, PyVal.int 2], [PyVal.float (1/2), PyVal.int 1, PyVal.int 2]]
     (by decide)⟩

/-- C9 (code bug): the round trip fails.  `/send`'s success path appends
`f'{time.time()},{amount_in_pol},{recipient_address}'`, whose first field
is a FLOAT's string form; `readAll` applies `int` to that string, which
raises ValueError — so appending an entry and immediately reading the log
back fails instead of returning the entry.  (The address in the third
field would fail the `float` conversion as well.) -/
theorem append_then_readAll_fails_bug :
    (send_transaction env0 pSend0).appended
      = [[PyVal.float 1700000000, PyVal.int 1, PyVal.str "0xRecipient"]] ∧
    readAll ([] ++ (send_transaction env0 pSend0).appended)
      = .error (.valueError "invalid literal for int") := by
  constructor
  · rfl
  · rfl

/-- C2: with `amount_in_usd` present, `/buy-pol` always answers from the
500 error branch and never with a transaction hash: `get_pol_price()`
returns a `(response, status)` tuple, not a float, so the division
`amount_in_usd / pol_price` raises TypeError inside the `try`; nothing is
submitted and nothing is logged. -/
theorem buy_pol_division_always_fails (env : Env) (p : Payload)
    (h : p.amount_in_usd ≠ PyVal.none) :
    (buy_pol env p).result = .ok (jerr500 "unsupported operand type(s) for /") ∧
    (buy_pol env p).submitted = [] ∧ (buy_pol env p).appended = [] ∧
    (buy_pol env p).returnsTxHash = false := by
  unfold buy_pol
  cases hla : env.chain.latestAnswer () <;>
    simp [h, hla, get_pol_price, pyDiv, pyNumber, PyErr.message, jok, jerr500,
      HandlerOut.returnsTxHash]

/-- Witness for `buy_pol_division_always_fails` at a concrete payload. -/
theorem buy_pol_division_always_fails_witness :
    pBuy0.amount_in_usd ≠ PyVal.none ∧
    ((buy_pol env0 pBuy0).result = .ok (jerr500 "unsupported operand type(s) for /") ∧
     (buy_pol env0 pBuy0).submitted = [] ∧ (buy_pol env0 pBuy0).appended = [] ∧
     (buy_pol env0 pBuy0).returnsTxHash = false) :=
  ⟨by decide, buy_pol_division_always_fails env0 pBuy0 (by decide)⟩

/-- C1 (amended): `/auto-rebalance` indeed never submits a transaction, but
not by consulting the decision: for EVERY log and payload the handler
fails with an uncaught exception before reading the decision — the log
parse raises, or the `.json()` access on the `(response, status)` tuple
raises — so no chain call is made and no no-op success is ever returned. -/
theorem auto_rebalance_never_submits (env : Env) (log : List Line) (p : Payload) :
    (auto_rebalance env log p).submitted = [] ∧
    (auto_rebalance env log p).calls = [] ∧
    (auto_rebalance env log p).isUncaught = true :=
  ⟨(auto_rebalance_raises env log p).2.1, (auto_rebalance_raises env log p).1,
   (auto_rebalance_raises env log p).2.2.2⟩

/-- C1 counterexample: the empty log gives the all-false decision and the
payload is complete, yet `/auto-rebalance` does not answer with a no-op
success — the handler raises AttributeError calling `.json()` on the
insights `(response, status)` tuple. -/
theorem auto_rebalance_no_noop_cex :
    evaluate [] = ⟨false, false, false⟩ ∧
    (auto_rebalance env0 [] pReb0).submitted = [] ∧
    (auto_rebalance env0 [] pReb0).result
      = .error (.attributeError "tuple object has no attribute json") :=
  ⟨by decide, by rfl, by rfl⟩

/-- C5 (amended): `/send`, `/buy-pol` and `/rebalance` do answer 400 with
no chain call and no side effect when a required field is missing;
`/auto-rebalance` attempts no chain call and has no side effect either,
but it does NOT return the 400 response — it fails with an uncaught
exception before ever validating the payload. -/
theorem missing_field_rejected_before_chain (env : Env) (log : List Line) (p : Payload) :
    ((p.recipient_address = PyVal.none ∨ p.amount_in_pol = PyVal.none) →
      send_transaction env p
        = { result := .ok jerr400, calls := [], submitted := [], appended := [] }) ∧
    (p.amount_in_usd = PyVal.none →
      buy_pol env p
        = { result := .ok jerr400, calls := [], submitted := [], appended := [] }) ∧
    ((p.token_a = PyVal.none ∨ p.token_b = PyVal.none ∨ p.amount_a = PyVal.none
        ∨ p.amount_b = PyVal.none) →
      rebalance env p
        = { result := .ok jerr400, calls := [], submitted := [], appended := [] }) ∧
    ((p.token_a = PyVal.none ∨ p.token_b = PyVal.none ∨ p.amount_a = PyVal.none
        ∨ p.amount_b = PyVal.none) →
      (auto_rebalance env log p).calls = [] ∧ (auto_rebalance env log p).submitted = [] ∧
      (auto_rebalance env log p).appended = [] ∧
      (auto_rebalance env log p).isUncaught = true ∧
      (auto_rebalance env log p).result ≠ .ok jerr400) := by
  refine ⟨?_, ?_, ?_, ?_⟩
  · intro h
    simp only [send_transaction]
    rw [if_pos h]
  · intro h
    simp only [buy_pol]
    rw [if_pos h]
  · intro h
    apply rebalance_invalid_400
    rcases h with h | h | h | h <;> simp [truthy, h]
  · intro _
    obtain ⟨hc, hs, hap, hu⟩ := auto_rebalance_raises env log p
    exact ⟨hc, hs, hap, hu, isUncaught_ne_ok hu _⟩

/-- Witness for `missing_field_rejected_before_chain` at the empty
payload. -/
theorem missing_field_rejected_before_chain_witness :
    (send_transaction env0 pEmpty
      = { result := .ok jerr400, calls := [], submitted := [], appended := [] }) ∧
    (buy_pol env0 pEmpty
      = { result := .ok jerr400, calls := [], submitted := [], appended := [] }) ∧
    (rebalance env0 pEmpty
      = { result := .ok jerr400, calls := [], submitted := [], appended := [] }) ∧
    ((auto_rebalance env0 [] pEmpty).calls = [] ∧
     (auto_rebalance env0 [] pEmpty).submitted = [] ∧
     (auto_rebalance env0 [] pEmpty).appended = [] ∧
     (auto_rebalance env0 [] pEmpty).isUncaught = true ∧
     (auto_rebalance env0 [] pEmpty).result ≠ .ok jerr400) := by
  have h := missing_field_rejected_before_chain env0 [] pEmpty
  exact ⟨h.1 (Or.inl rfl), h.2.1 rfl, h.2.2.1 (Or.inl rfl), h.2.2.2 (Or.inl rfl)⟩

/-- C5 counterexample: a payload with every field missing still does not
get the 400 answer from `/auto-rebalance`: the handler raises before its
validation line can run. -/
theorem auto_rebalance_missing_field_cex :
    pEmpty.token_a = PyVal.none ∧
    (auto_rebalance env0 [] pEmpty).result
      = .error (.attributeError "tuple object has no attribute json") ∧
    (auto_rebalance env0 [] pEmpty).result ≠ .ok jerr400 :=
  ⟨rfl, by rfl, by decide⟩

theorem isUncaught_no_txhash (H : HandlerOut) (h : H.isUncaught = true) :
    H.returnsTxHash = false := by
  unfold HandlerOut.returnsTxHash
  unfold HandlerOut.isUncaught at h
  cases hr : H.result with
  | error e => rfl
  | ok v => rw [hr] at h; cases h

theorem scaledAmount_zero_bal (n : Int) : scaledAmount (PyVal.int n) 0 = .ok 0 := by
  simp [scaledAmount, pyNumber, pyTruncInt]

theorem rebalance_env0_result :
    (rebalance env0 pReb0).result = .ok (jok (.txHash "0xhash")) := by
  have hA : truthy (PyVal.str "0xA") = true := by decide
  have hB : truthy (PyVal.str "0xB") = true := by decide
  have h1 : truthy (PyVal.int 1) = true := by decide
  have h2 : truthy (PyVal.int 2) = true := by decide
  simp [rebalance, env0, chain0, pReb0, hA, hB, h1, h2, scaledAmount_zero_bal]

theorem auto_pipeline_env0_result :
    (auto_rebalance_pipeline env0 pReb0 ⟨false, false, true⟩).result
      = .ok (jok (.txHash "0xhash")) := by
  have hA : truthy (PyVal.str "0xA") = true := by decide
  have hB : truthy (PyVal.str "0xB") = true := by decide
  have h1 : truthy (PyVal.int 1) = true := by decide
  have h2 : truthy (PyVal.int 2) = true := by decide
  have hlast : ([5, 7] : List Int).getLast? = some 7 := by decide
  simp [auto_rebalance_pipeline, env0, chain0, pReb0, hA, hB, h1, h2,
    scaledAmount_zero_bal, toWeiEther, hlast]

/-- C7 (amended): the handlers whose bodies sit in `try`/`except` (`/send`,
`/buy-pol`, `/rebalance`, `/get-pol-price`, `/get-dai-price`) never let a
failure escape — each converts it to the JSON `{'error': str(e)}` body —
but `/rebalance-insights` has no handler-level catch, so it escapes
uncaught exactly when the log parse fails, and `/auto-rebalance` always
escapes uncaught. -/
theorem endpoint_error_boundary (env : Env) (log : List Line) (p : Payload) :
    (send_transaction env p).isUncaught = false ∧
    (buy_pol env p).isUncaught = false ∧
    (rebalance env p).isUncaught = false ∧
    (get_pol_price env).isUncaught = false ∧
    (get_dai_price env).isUncaught = false ∧
    ((get_rebalance_insights log).isUncaught = true ↔ ∃ e, readAll log = .error e) ∧
    (auto_rebalance env log p).isUncaught = true := by
  refine ⟨send_transaction_no_uncaught env p, buy_pol_no_uncaught env p,
    rebalance_no_uncaught env p, get_pol_price_no_uncaught env,
    get_dai_price_no_uncaught env, ?_, (auto_rebalance_raises env log p).2.2.2⟩
  cases h : readAll log <;>
    simp [get_rebalance_insights, HandlerOut.isUncaught, h]

/-- C7 counterexample: a log with a malformed line makes
`/rebalance-insights` fail WITHOUT converting the error to a JSON body —
the ValueError escapes the handler uncaught. -/
theorem insights_uncaught_parse_error_cex :
    (get_rebalance_insights [[PyVal.float (1/2), PyVal.int 1, PyVal.int 2]]).result
      = .error (.valueError "invalid literal for int") ∧
    (get_rebalance_insights [[PyVal.float (1/2), PyVal.int 1, PyVal.int 2]]).isUncaught
      = true :=
  ⟨by rfl, by rfl⟩

/-- C6 (amended): `/send` and `/rebalance` do, on success (receipt
obtained), append the derived log line and answer with the transaction
hash; but `/buy-pol` and `/auto-rebalance` never reach a success response
at all, and `/auto-rebalance`'s success branch — were it reachable —
answers with the hash WITHOUT appending any log line. -/
theorem pipeline_success_appends_and_returns_hash (env : Env) (log : List Line)
    (p : Payload) (h : String) :
    ((send_transaction env p).result = .ok (jok (.txHash h)) →
      (send_transaction env p).appended
        = [[PyVal.float env.now, p.amount_in_pol, p.recipient_address]] ∧
      ∃ tx r, (send_transaction env p).submitted = [tx] ∧
        env.chain.sendTransaction tx = .ok h ∧ env.chain.waitForReceipt h = .ok r) ∧
    ((rebalance env p).result = .ok (jok (.txHash h)) →
      ∃ aS bB tx txh r, (rebalance env p).submitted = [tx] ∧
        env.chain.transact tx = .ok txh ∧ env.chain.waitForReceipt txh = .ok r ∧
        h = r.transactionHash ∧
        (rebalance env p).appended = [[PyVal.float env.now, PyVal.int aS, PyVal.int bB]]) ∧
    ((buy_pol env p).returnsTxHash = false) ∧
    ((auto_rebalance env log p).returnsTxHash = false) ∧
    (∀ d : Decision, (auto_rebalance_pipeline env p d).appended = []) := by
  refine ⟨?_, ?_, buy_pol_no_txhash env p,
    isUncaught_no_txhash _ (auto_rebalance_raises env log p).2.2.2,
    fun d => auto_rebalance_pipeline_no_append env p d⟩
  · intro hs
    simp only [send_transaction] at hs ⊢
    by_cases hv : (p.recipient_address = PyVal.none ∨ p.amount_in_pol = PyVal.none)
    · rw [if_pos hv] at hs
      simp [jerr400, jok] at hs
    · rw [if_neg hv] at hs ⊢
      revert hs
      cases hw : toWeiEther p.amount_in_pol with
      | error e => intro hs; simp [jerr500, jok] at hs
      | ok wei =>
        intro hs
        dsimp only at hs ⊢
        revert hs
        cases hsend : env.chain.sendTransaction (Tx.transfer p.recipient_address wei) with
        | error e => intro hs; simp [jerr500, jok] at hs
        | ok txh =>
          intro hs
          dsimp only at hs ⊢
          revert hs
          cases hrec : env.chain.waitForReceipt txh with
          | error e => intro hs; simp [jerr500, jok] at hs
          | ok r =>
            intro hs
            dsimp only at hs ⊢
            simp [jok] at hs
            subst hs
            exact ⟨rfl, Tx.transfer p.recipient_address wei, r, rfl, hsend, hrec⟩
  · intro hs
    simp only [rebalance] at hs ⊢
    by_cases hv : (!(truthy p.token_a && truthy p.token_b && truthy p.amount_a &&
        truthy p.amount_b)) = true
    · rw [if_pos hv] at hs
      simp [jerr400, jok] at hs
    · rw [if_neg hv] at hs ⊢
      revert hs
      cases hba : env.chain.getBalance p.token_a with
      | error e => intro hs; simp [jerr500, jok] at hs
      | ok balA =>
        intro hs
        dsimp only at hs ⊢
        revert hs
        cases hbb : env.chain.getBalance p.token_b with
        | error e => intro hs; simp [jerr500, jok] at hs
        | ok balB =>
          intro hs
          dsimp only at hs ⊢
          revert hs
          cases hsa : scaledAmount p.amount_a balA with
          | error e => intro hs; simp [jerr500, jok] at hs
          | ok aSell =>
            intro hs
            dsimp only at hs ⊢
            revert hs
            cases hsb : scaledAmount p.amount_b balB with
            | error e => intro hs; simp [jerr500, jok] at hs
            | ok bBuy =>
              intro hs
              dsimp only at hs ⊢
              revert hs
              cases htr : env.chain.transact (Tx.addLiquidity p.token_a p.token_b aSell bBuy
                  1 1 env.walletAddress (pyTruncInt env.now + 60)) with
              | error e => intro hs; simp [jerr500, jok] at hs
              | ok txh =>
                intro hs
                dsimp only at hs ⊢
                revert hs
                cases hrc : env.chain.waitForReceipt txh with
                | error e => intro hs; simp [jerr500, jok] at hs
                | ok r =>
                  intro hs
                  dsimp only at hs ⊢
                  simp [jok] at hs
                  exact ⟨aSell, bBuy,
                    Tx.addLiquidity p.token_a p.token_b aSell bBuy 1 1 env.walletAddress
                      (pyTruncInt env.now + 60), txh, r, rfl, htr, hrc, hs.symm, rfl⟩
  
/-- Witness for `pipeline_success_appends_and_returns_hash`: concrete
successful `/send` and `/rebalance` runs over `chain0`. -/
theorem pipeline_success_appends_and_returns_hash_witness :
    (send_transaction env0 pSend0).result = .ok (jok (.txHash "0xhash")) ∧
    ((send_transaction env0 pSend0).appended
        = [[PyVal.float env0.now, pSend0.amount_in_pol, pSend0.recipient_address]] ∧
      ∃ tx r, (send_transaction env0 pSend0).submitted = [tx] ∧
        env0.chain.sendTransaction tx = .ok "0xhash" ∧
        env0.chain.waitForReceipt "0xhash" = .ok r) ∧
    (rebalance env0 pReb0).result = .ok (jok (.txHash "0xhash")) ∧
    (∃ aS bB tx txh r, (rebalance env0 pReb0).submitted = [tx] ∧
      env0.chain.transact tx = .ok txh ∧ env0.chain.waitForReceipt txh = .ok r ∧
      "0xhash" = r.transactionHash ∧
      (rebalance env0 pReb0).appended
        = [[PyVal.float env0.now, PyVal.int aS, PyVal.int bB]]) := by
  have hsend : (send_transaction env0 pSend0).result = .ok (jok (.txHash "0xhash")) := by rfl
  have h1 := pipeline_success_appends_and_returns_hash env0 [] pSend0 "0xhash"
  have h2 := pipeline_success_appends_and_returns_hash env0 [] pReb0 "0xhash"
  exact ⟨hsend, h1.1 hsend, rebalance_env0_result, h2.2.1 rebalance_env0_result⟩

/-- C6 counterexample: a run that reaches `/auto-rebalance`'s success
branch (the receipt is obtained and the hash returned) appends NOTHING to
the activity log. -/
theorem auto_success_no_append_cex :
    (auto_rebalance_pipeline env0 pReb0 ⟨false, false, true⟩).result
      = .ok (jok (.txHash "0xhash")) ∧
    (auto_rebalance_pipeline env0 pReb0 ⟨false, false, true⟩).appended = [] :=
  ⟨auto_pipeline_env0_result, auto_rebalance_pipeline_no_append env0 pReb0 ⟨false, false, true⟩⟩

/-- C10 (amended): `/rebalance`'s truthiness validation rejects
present-but-falsy fields (zero amounts, empty strings) with exactly the
400 'Missing required parameters' response and no side effects, the same
as for absent fields.  `/auto-rebalance` contains the identical check
(line 364) — and it behaves the same way in the pipeline body, reachable
only under a rebalance-true decision — but the endpoint itself never
reaches it: every request fails with the uncaught error, never the 400. -/
theorem falsy_field_validation (env : Env) (log : List Line) (p : Payload) :
    ((truthy p.token_a && truthy p.token_b && truthy p.amount_a && truthy p.amount_b)
        = false →
      rebalance env p
        = { result := .ok jerr400, calls := [], submitted := [], appended := [] }) ∧
    (∀ d : Decision, d.rebalance = true →
      (truthy p.token_a && truthy p.token_b && truthy p.amount_a && truthy p.amount_b)
        = false →
      auto_rebalance_pipeline env p d
        = { result := .ok jerr400, calls := [], submitted := [], appended := [] }) ∧
    (auto_rebalance env log p).result ≠ .ok jerr400 := by
  refine ⟨rebalance_invalid_400 env p, ?_, ?_⟩
  · intro d hd h
    simp [auto_rebalance_pipeline, hd, h]
  · exact isUncaught_ne_ok (auto_rebalance_raises env log p).2.2.2 _

/-- Witness for `falsy_field_validation` at a payload whose fields are all
present but with `amount_a = 0`. -/
theorem falsy_field_validation_witness :
    (truthy pFalsy0.token_a && truthy pFalsy0.token_b && truthy pFalsy0.amount_a &&
      truthy pFalsy0.amount_b) = false ∧
    rebalance env0 pFalsy0
      = { result := .ok jerr400, calls := [], submitted := [], appended := [] } ∧
    auto_rebalance_pipeline env0 pFalsy0 ⟨false, false, true⟩
      = { result := .ok jerr400, calls := [], submitted := [], appended := [] } := by
  have h := falsy_field_validation env0 [] pFalsy0
  exact ⟨by decide, h.1 (by decide), h.2.1 ⟨false, false, true⟩ rfl (by decide)⟩

/-- C10 counterexample: every field present but `amount_a = 0` — the claim
says `/auto-rebalance` answers the 400 'Missing required parameters'
response, but the handler raises before its validation line can run. -/
theorem auto_rebalance_falsy_field_cex :
    pFalsy0.amount_a = PyVal.int 0 ∧
    (auto_rebalance env0 [] pFalsy0).result
      = .error (.attributeError "tuple object has no attribute json") ∧
    (auto_rebalance env0 [] pFalsy0).result ≠ .ok jerr400 :=
  ⟨rfl, by rfl, by decide⟩
